import Mathlib

/-
Verification of the ESC/POS command encoder (go-escpos).

The repository holds two variants of the encoder: src/epson.go and
src/unnamed/part_000. The definitions below are a shallow embedding of
the frame-building code of those files: a Go string is embedded as a
`List Nat` of its bytes, and each Printer method is embedded as the byte
sequence (or sequence of frames) it passes to the transport's write.
The Printer.write helper itself is not among the files at hand; it is
taken to hand the string's bytes to the transport unchanged (the spec's
Transport Adapter: write(bytes) on a raw byte stream).

Two pieces of Go library semantics matter and are embedded explicitly:
  * fmt.Sprintf "%c" renders an integer as the UTF-8 encoding of that
    code point, so values of 0x80 and above occupy MORE than one byte
    in the produced string (utf8Encode below);
  * fmt.Sprintf "%v" / "%d" on an integer renders its decimal digits
    as ASCII text (decDigits below).
-/

namespace Escpos

/-- Go fmt "%c" semantics for a non-negative argument: the UTF-8 bytes of
the code point, with the replacement character U+FFFD for surrogates and
out-of-range values. -/
def utf8Encode (c : Nat) : List Nat :=
  if c < 128 then [c]
  else if c < 2048 then [192 + c / 64, 128 + c % 64]
  else if 55296 ≤ c ∧ c < 57344 then [239, 191, 189]
  else if c < 65536 then [224 + c / 4096, 128 + c / 64 % 64, 128 + c % 64]
  else if c < 1114112 then
    [240 + c / 262144, 128 + c / 4096 % 64, 128 + c / 64 % 64, 128 + c % 64]
  else [239, 191, 189]

/-- Helper for decDigits: fuel-indexed accumulation of decimal digits. -/
def decDigitsAux : Nat → Nat → List Nat → List Nat
  | 0, _, acc => acc
  | fuel + 1, n, acc =>
    if n < 10 then (48 + n) :: acc
    else decDigitsAux fuel (n / 10) ((48 + n % 10) :: acc)

/-- Go fmt "%v" / "%d" semantics for a non-negative integer: the ASCII
bytes of its decimal rendering. -/
def decDigits (n : Nat) : List Nat := decDigitsAux (n + 1) n []

/-- Modelled from the spec: the BarcodeType constants are declared outside
the files at hand; the spec says each type maps to a one-byte protocol
identifier, with CODE128 identified by 0x49 (its frame example reads
"1D 6B 49 ..."). -/
inductive BarcodeType
  | UPCA
  | UPCE
  | EAN13
  | EAN8
  | CODE39
  | ITF
  | CODABAR
  | CODE128
deriving DecidableEq

/-- Modelled from the spec: the one-byte protocol identifier each
BarcodeType formats into the payload frame (the constants are outside the
files at hand; only CODE128 = 0x49 is pinned by the spec, the seven
null-terminated types carry the classic function-A identifiers 0..6). -/
def BarcodeType.idByte : BarcodeType → Nat
  | .UPCA => 0
  | .UPCE => 1
  | .EAN13 => 2
  | .EAN8 => 3
  | .CODE39 => 4
  | .ITF => 5
  | .CODABAR => 6
  | .CODE128 => 73

/-- The payload frame of Barcode (the switch of epson.go lines 153-172 /
part_000 lines 149-168): the seven null-terminated types follow
Sprintf "\x1d\x6b%s%v\x00"; CODE128 follows "\x1d\x6b%s%v%v\x00", whose
first %v renders len(barcode) as ASCII decimal digits. The default arm of
the switch (panic) is unreachable: the enumeration is exhaustive. -/
def barcodeDataFrame (barcode : List Nat) (format : BarcodeType) : List Nat :=
  if format = .CODE128 then
    [29, 107] ++ [format.idByte] ++ decDigits barcode.length ++ barcode ++ [0]
  else
    [29, 107] ++ [format.idByte] ++ barcode ++ [0]

/-- The packed byte of Size (epson.go line 96): uint8 arithmetic
((width-1)<<4)|(height-1), the subtractions wrapping modulo 256. -/
def sizePacked (width height : Nat) : Nat :=
  ((width + 255) * 16) % 256 ||| ((height + 255) % 256)

/-- Size (epson.go lines 94-97): Sprintf "\x1D!%c" of the packed byte;
%c expands bytes of 0x80 and above into two UTF-8 bytes. -/
def Size (width height : Nat) : List Nat :=
  [29, 33] ++ utf8Encode (sizePacked width height)

/-- PrintAreaWidth (epson.go lines 126-136) for a non-negative width:
nl and nh computed as in the source (uint8 conversions are modulo 256),
then Sprintf "\x1DW%c%c". -/
def PrintAreaWidth (width : Nat) : List Nat :=
  if width < 256 then
    [29, 87] ++ utf8Encode (width % 256) ++ utf8Encode 0
  else
    [29, 87] ++ utf8Encode (width % 256) ++ utf8Encode (width / 256 % 256)

/-- The constant GS ( k envelope opening of twodimensionBarcode. -/
def twoDbar : List Nat := [29, 40, 107]

/-- twodimensionBarcode (epson.go lines 201-221): the list of sub-frames
handed to write, in order. size is a Go int; the clamp substitutes 3 for
any size outside [2,16]. The QR codetype "\x31" alone inserts the ECC
sub-frame. The store sub-frame's two %c length bytes are UTF-8 expanded
when their values reach 0x80. -/
def twodimensionBarcode (codetype code : List Nat) (size : Int) : List (List Nat) :=
  let size : Int := if size < 2 ∨ 16 < size then 3 else size
  let sizeF := twoDbar ++ [3, 0] ++ codetype ++ [67] ++ utf8Encode size.toNat
  let eccF := twoDbar ++ [3, 0] ++ codetype ++ [69, 48, 10]
  let codePL := code.length + 3
  let codePH := codePL / 256
  let codePL2 := codePL % 256
  let storeF := twoDbar ++ utf8Encode codePL2 ++ utf8Encode codePH ++ codetype ++ [80, 48] ++ code
  let printF := twoDbar ++ [3, 0] ++ codetype ++ [81, 48, 10]
  [sizeF] ++ (if codetype = [49] then [eccF] else []) ++ [storeF, printF]

/-- QR (epson.go lines 182-184): codetype "\x31". -/
def QR (code : List Nat) (size : Int) : List (List Nat) :=
  twodimensionBarcode [49] code size

/-- PDF417 (epson.go lines 187-189): codetype "\x30". -/
def PDF417 (code : List Nat) (size : Int) : List (List Nat) :=
  twodimensionBarcode [48] code size

/-- Aztec (epson.go lines 192-194): codetype "\x35". -/
def Aztec (code : List Nat) (size : Int) : List (List Nat) :=
  twodimensionBarcode [53] code size

/-- DataMatrix (epson.go lines 197-199): codetype "\x36". -/
def DataMatrix (code : List Nat) (size : Int) : List (List Nat) :=
  twodimensionBarcode [54] code size

/-- One write against a fallible transport: the frame is appended to the
trace and the oracle says whether this (0-based) write fails. -/
def writeStep (fail : Nat → Bool) (tr : List (List Nat)) (frame : List Nat) :
    List (List Nat) × Option Unit :=
  (tr ++ [frame], if fail tr.length then some () else none)

/-- twodimensionBarcode run against a fallible transport, mirroring the
source statement by statement: every write's error value is discarded
(the Go source never inspects them) and nil is returned at the end. -/
def twodimensionBarcodeRun (fail : Nat → Bool) (codetype code : List Nat) (size : Int) :
    List (List Nat) × Option Unit :=
  let size : Int := if size < 2 ∨ 16 < size then 3 else size
  let sizeF := twoDbar ++ [3, 0] ++ codetype ++ [67] ++ utf8Encode size.toNat
  let eccF := twoDbar ++ [3, 0] ++ codetype ++ [69, 48, 10]
  let codePL := code.length + 3
  let codePH := codePL / 256
  let codePL2 := codePL % 256
  let storeF := twoDbar ++ utf8Encode codePL2 ++ utf8Encode codePH ++ codetype ++ [80, 48] ++ code
  let printF := twoDbar ++ [3, 0] ++ codetype ++ [81, 48, 10]
  let s1 := writeStep fail [] sizeF
  let s2 := if codetype = [49] then writeStep fail s1.1 eccF else (s1.1, none)
  let s3 := writeStep fail s2.1 storeF
  let s4 := writeStep fail s3.1 printF
  (s4.1, none)

/-- The transport operations GetErrorStatus can issue. -/
inductive TOp
  | write (bs : List Nat)
  | read (n : Nat)
deriving DecidableEq

/-- GetErrorStatus (epson.go lines 223-235) run against a transport whose
write outcome is werr and whose one-byte read outcome is rres: the trace
of transport operations and the (status, error) return value, mirroring
the early returns of the source. -/
def GetErrorStatusRun (werr : Option Unit) (rres : Except Unit (Fin 256)) :
    List TOp × (Nat × Option Unit) :=
  match werr with
  | some e => ([.write [16, 4, 2]], (0, some e))
  | none =>
    match rres with
    | .error e => ([.write [16, 4, 2], .read 1], (0, some e))
    | .ok b => ([.write [16, 4, 2], .read 1], (b.val, none))

/-- Observable outcome of one Print call: the inputs handed to the
character converter, the frames handed to write, and the returned error. -/
structure PrintRun where
  convCalls : List (List Nat)
  writes : List (List Nat)
  err : Option Unit
deriving DecidableEq

/-- Print (epson.go lines 67-81): empty input returns nil before anything
else runs. conv models the external character converter and repl the
textReplace pass (external collaborators, outside the files at hand);
wfail the transport write outcome. -/
def PrintTrace (conv : List Nat → Except Unit (List Nat))
    (repl : List Nat → List Nat) (wfail : Bool) (data : List Nat) : PrintRun :=
  if data = [] then ⟨[], [], none⟩
  else
    match conv data with
    | .error e => ⟨[data], [], some e⟩
    | .ok b => ⟨[data], [repl b], if wfail then some () else none⟩

/-- SetDoubleHeight (epson.go lines 271-279): WriteBytes of a raw byte
slice, no Sprintf involved. -/
def SetDoubleHeight (doubleHeight : Bool) : List Nat :=
  if doubleHeight then [28, 33, 8] else [28, 33, 0]

/-- SetDoubleWidth (epson.go lines 282-290). -/
def SetDoubleWidth (doubleWidth : Bool) : List Nat :=
  if doubleWidth then [28, 33, 4] else [28, 33, 0]

/-- SetCharacterSet of src/epson.go (lines 253-257): WriteBytes of the raw
bytes 1B 52 n, n a uint8. -/
def SetCharacterSet (n : Nat) : List Nat := [27, 82, n % 256]

/-- SetCharacterSet of src/unnamed/part_000 (lines 234-236): write of
Sprintf "\x1B\x52%d" over an int n, whose %d renders n as ASCII decimal
digits (non-negative n). -/
def SetCharacterSetV0 (n : Nat) : List Nat := [27, 82] ++ decDigits n

theorem utf8Encode_of_lt (c : Nat) (h : c < 128) : utf8Encode c = [c] := by
  unfold utf8Encode
  rw [if_pos h]

theorem decDigits_of_lt_ten (n : Nat) (h : n < 10) : decDigits n = [48 + n] := by
  unfold decDigits decDigitsAux
  rw [if_pos h]

theorem decDigitsAux_length_lt :
    ∀ (fuel n : Nat) (acc : List Nat), 0 < fuel →
      acc.length < (decDigitsAux fuel n acc).length := by
  intro fuel
  induction fuel with
  | zero => intro n acc h; omega
  | succ f ih =>
    intro n acc _
    simp only [decDigitsAux]
    split
    · simp
    · rcases Nat.eq_zero_or_pos f with hf | hf
      · subst hf
        simp [decDigitsAux]
      · exact lt_trans (by simp) (ih (n / 10) ((48 + n % 10) :: acc) hf)

theorem decDigits_length_of_ten_le (n : Nat) (h : 10 ≤ n) :
    2 ≤ (decDigits n).length := by
  unfold decDigits decDigitsAux
  rw [if_neg (by omega)]
  have := decDigitsAux_length_lt n (n / 10) [48 + n % 10] (by omega)
  simpa using this

theorem twodimensionBarcode_in_range (codetype code : List Nat) (size : Int)
    (h1 : 2 ≤ size) (h2 : size ≤ 16) :
    twodimensionBarcode codetype code size
      = [twoDbar ++ [3, 0] ++ codetype ++ [67, size.toNat]]
        ++ (if codetype = [49] then [twoDbar ++ [3, 0] ++ codetype ++ [69, 48, 10]] else [])
        ++ [twoDbar ++ utf8Encode ((code.length + 3) % 256)
              ++ utf8Encode ((code.length + 3) / 256) ++ codetype ++ [80, 48] ++ code,
            twoDbar ++ [3, 0] ++ codetype ++ [81, 48, 10]] := by
  simp only [twodimensionBarcode]
  rw [if_neg (by omega)]
  rw [utf8Encode_of_lt size.toNat (by omega)]
  simp

/-- C1 counterexample: the claim says Barcode("12345678", CODE128)'s payload
frame begins 1D 6B 49 08; the code renders the length with %v, giving the
ASCII digit 0x38, so the fourth byte is not 0x08. -/
theorem barcode_code128_literal_length_refuted :
    List.take 4 (barcodeDataFrame [49, 50, 51, 52, 53, 54, 55, 56] .CODE128)
      ≠ [29, 107, 73, 8] := by decide

/-- C1 (amended): the payload frame is 1D 6B, the type's identifier byte,
then for the seven non-CODE128 types the payload and a null terminator,
and for CODE128 the ASCII decimal digits of the payload byte count, the
payload, and the same null terminator. -/
theorem barcode_payload_frame (barcode : List Nat) (format : BarcodeType) :
    (format ≠ .CODE128 →
      barcodeDataFrame barcode format
        = [29, 107, format.idByte] ++ barcode ++ [0]) ∧
    barcodeDataFrame barcode .CODE128
      = [29, 107, 73] ++ decDigits barcode.length ++ barcode ++ [0] := by
  constructor
  · intro h
    unfold barcodeDataFrame
    rw [if_neg h]
    simp
  · unfold barcodeDataFrame
    rw [if_pos rfl]
    simp [BarcodeType.idByte]

/-- C1 witness: the two spec examples, with the CODE128 length rendered as
the ASCII digit 0x38 and a trailing null. -/
theorem barcode_payload_frame_witness :
    barcodeDataFrame [49, 50, 51, 52, 53, 54, 55, 56] .EAN8
      = [29, 107, 3, 49, 50, 51, 52, 53, 54, 55, 56, 0] ∧
    barcodeDataFrame [49, 50, 51, 52, 53, 54, 55, 56] .CODE128
      = [29, 107, 73, 56, 49, 50, 51, 52, 53, 54, 55, 56, 0] := by
  have h := barcode_payload_frame [49, 50, 51, 52, 53, 54, 55, 56] BarcodeType.EAN8
  exact ⟨h.1 (by decide), h.2⟩

/-- C2: the claim says a failed sub-frame write aborts the 2D sequence and
surfaces the error; the source discards every write's error value. Run at
the failing input (every write fails, the first included): all four
sub-frames of QR("AB", 3) are still handed to the transport and the
function returns no error. -/
theorem twodimensionBarcode_ignores_write_failures :
    twodimensionBarcodeRun (fun _ => true) [49] [65, 66] 3
      = ([[29, 40, 107, 3, 0, 49, 67, 3],
          [29, 40, 107, 3, 0, 49, 69, 48, 10],
          [29, 40, 107, 5, 0, 49, 80, 48, 65, 66],
          [29, 40, 107, 3, 0, 49, 81, 48, 10]], none) := by decide

/-- C3 counterexample: the claim says PrintAreaWidth(200) writes 1D 57 C8 00;
Sprintf %c expands the byte 0xC8 into the two UTF-8 bytes C3 88. -/
theorem printAreaWidth_200_refuted :
    PrintAreaWidth 200 ≠ [29, 87, 200, 0] := by decide

/-- C3 (amended): for width in [0, 65535], PrintAreaWidth writes 1D 57
followed by the %c (UTF-8) encodings of nl = width mod 256 and
nh = width div 256; this equals the four bytes 1D 57 nl nh exactly when
both nl and nh are below 0x80. -/
theorem printAreaWidth_frame (width : Nat) (h : width ≤ 65535) :
    PrintAreaWidth width
      = [29, 87] ++ utf8Encode (width % 256) ++ utf8Encode (width / 256) ∧
    (width % 256 < 128 → width / 256 < 128 →
      PrintAreaWidth width = [29, 87, width % 256, width / 256]) := by
  have hmain : PrintAreaWidth width
      = [29, 87] ++ utf8Encode (width % 256) ++ utf8Encode (width / 256) := by
    unfold PrintAreaWidth
    by_cases hw : width < 256
    · rw [if_pos hw, Nat.div_eq_of_lt hw]
    · rw [if_neg hw, Nat.mod_eq_of_lt (show width / 256 < 256 by omega)]
  refine ⟨hmain, fun hl hh => ?_⟩
  rw [hmain, utf8Encode_of_lt _ hl, utf8Encode_of_lt _ hh]
  rfl

/-- C3 witness: PrintAreaWidth(380) does write the four claimed bytes,
since 0x7C and 0x01 are below 0x80. -/
theorem printAreaWidth_frame_witness :
    PrintAreaWidth 380 = [29, 87, 124, 1] :=
  (printAreaWidth_frame 380 (by decide)).2 (by decide) (by decide)

/-- C4 counterexample: the claim says Size(16,16) writes 1D 21 FF; Sprintf
%c expands the packed byte 0xFF into the two UTF-8 bytes C3 BF. -/
theorem size_16_16_refuted : Size 16 16 ≠ [29, 33, 255] := by decide

/-- C4 (amended): for width and height in [1,16] the packed value is
((width-1)<<4)|(height-1), and Size writes 1D 21 followed by the %c
(UTF-8) encoding of that value; the frame is exactly the three bytes
1D 21 packed when the packed value is below 0x80, i.e. when width ≤ 8. -/
theorem size_frame (width height : Nat) (hw1 : 1 ≤ width) (hw2 : width ≤ 16)
    (hh1 : 1 ≤ height) (hh2 : height ≤ 16) :
    sizePacked width height = ((width - 1) <<< 4) ||| (height - 1) ∧
    Size width height = [29, 33] ++ utf8Encode (((width - 1) <<< 4) ||| (height - 1)) ∧
    (width ≤ 8 → Size width height = [29, 33, ((width - 1) <<< 4) ||| (height - 1)]) := by
  have e1 : (width + 255) * 16 % 256 = (width - 1) * 16 := by omega
  have e2 : (height + 255) % 256 = height - 1 := by omega
  have epack : sizePacked width height = ((width - 1) <<< 4) ||| (height - 1) := by
    unfold sizePacked
    rw [e1, e2, Nat.shiftLeft_eq]
  refine ⟨epack, ?_, fun hw8 => ?_⟩
  · unfold Size
    rw [epack]
  · have hx : (width - 1) <<< 4 < 2 ^ 7 := by
      rw [Nat.shiftLeft_eq, show (2 : Nat) ^ 4 = 16 from rfl,
        show (2 : Nat) ^ 7 = 128 from rfl]
      omega
    have hy : height - 1 < 2 ^ 7 := by
      rw [show (2 : Nat) ^ 7 = 128 from rfl]
      omega
    have hor := Nat.or_lt_two_pow hx hy
    rw [show (2 : Nat) ^ 7 = 128 from rfl] at hor
    unfold Size
    rw [epack, utf8Encode_of_lt _ hor]
    rfl

/-- C4 witness: Size(1,1) packs to 0x00 and writes the three bytes
1D 21 00; Size(16,16) packs to 0xFF and writes its UTF-8 expansion. -/
theorem size_frame_witness :
    Size 1 1 = [29, 33, 0] ∧ Size 16 16 = [29, 33] ++ utf8Encode 255 := by
  have h1 := size_frame 1 1 (by decide) (by decide) (by decide) (by decide)
  have h16 := size_frame 16 16 (by decide) (by decide) (by decide) (by decide)
  exact ⟨h1.2.2 (by decide), h16.2.1⟩

set_option maxRecDepth 4000 in
/-- C5 counterexample: for a 125-byte payload the store sub-frame's length
low byte is 128 = (125+3) mod 256, which %c expands into the UTF-8 pair
C2 80, so the bytes at offsets 3 and 4 do not read back as the little-endian
value payload length + 3. -/
theorem qr_store_length_field_refuted :
    ((QR (List.replicate 125 65) 3).getD 2 []).getD 3 0
      + 256 * ((QR (List.replicate 125 65) 3).getD 2 []).getD 4 0
      ≠ 125 + 3 := by decide

/-- C5 (amended): for every payload and in-range size, QR emits exactly the
four sub-frames size-set, ECC-set (hard-coded to the lowest level),
store-data, print, in order, while PDF417, Aztec and DataMatrix emit
exactly the three sub-frames size-set, store-data, print and never an ECC
sub-frame; the store sub-frame carries the %c (UTF-8) encodings of
(len+3) mod 256 and (len+3) div 256, which form a two-byte little-endian
length field equal to payload length + 3 exactly when both values are
below 0x80. -/
theorem twoD_subframe_sequence (code : List Nat) (size : Int)
    (h1 : 2 ≤ size) (h2 : size ≤ 16) :
    QR code size
      = [[29, 40, 107, 3, 0, 49, 67, size.toNat],
         [29, 40, 107, 3, 0, 49, 69, 48, 10],
         [29, 40, 107] ++ utf8Encode ((code.length + 3) % 256)
           ++ utf8Encode ((code.length + 3) / 256) ++ [49, 80, 48] ++ code,
         [29, 40, 107, 3, 0, 49, 81, 48, 10]] ∧
    PDF417 code size
      = [[29, 40, 107, 3, 0, 48, 67, size.toNat],
         [29, 40, 107] ++ utf8Encode ((code.length + 3) % 256)
           ++ utf8Encode ((code.length + 3) / 256) ++ [48, 80, 48] ++ code,
         [29, 40, 107, 3, 0, 48, 81, 48, 10]] ∧
    Aztec code size
      = [[29, 40, 107, 3, 0, 53, 67, size.toNat],
         [29, 40, 107] ++ utf8Encode ((code.length + 3) % 256)
           ++ utf8Encode ((code.length + 3) / 256) ++ [53, 80, 48] ++ code,
         [29, 40, 107, 3, 0, 53, 81, 48, 10]] ∧
    DataMatrix code size
      = [[29, 40, 107, 3, 0, 54, 67, size.toNat],
         [29, 40, 107] ++ utf8Encode ((code.length + 3) % 256)
           ++ utf8Encode ((code.length + 3) / 256) ++ [54, 80, 48] ++ code,
         [29, 40, 107, 3, 0, 54, 81, 48, 10]] ∧
    ((code.length + 3) % 256 < 128 → (code.length + 3) / 256 < 128 →
      (QR code size).getD 2 []
        = [29, 40, 107, (code.length + 3) % 256, (code.length + 3) / 256, 49, 80, 48]
            ++ code) := by
  have hq := twodimensionBarcode_in_range [49] code size h1 h2
  have hp := twodimensionBarcode_in_range [48] code size h1 h2
  have ha := twodimensionBarcode_in_range [53] code size h1 h2
  have hd := twodimensionBarcode_in_range [54] code size h1 h2
  refine ⟨?_, ?_, ?_, ?_, fun hl hh => ?_⟩
  · rw [QR, hq]
    simp [twoDbar]
  · rw [PDF417, hp]
    simp [twoDbar]
  · rw [Aztec, ha]
    simp [twoDbar]
  · rw [DataMatrix, hd]
    simp [twoDbar]
  · rw [QR, hq, utf8Encode_of_lt _ hl, utf8Encode_of_lt _ hh]
    simp [twoDbar]

/-- C5 witness: QR("AB", 3) emits its four sub-frames and PDF417("AB", 3)
its three, with the store length field 5 = 2 + 3. -/
theorem twoD_subframe_sequence_witness :
    QR [65, 66] 3
      = [[29, 40, 107, 3, 0, 49, 67, 3], [29, 40, 107, 3, 0, 49, 69, 48, 10],
         [29, 40, 107, 5, 0, 49, 80, 48, 65, 66], [29, 40, 107, 3, 0, 49, 81, 48, 10]] ∧
    PDF417 [65, 66] 3
      = [[29, 40, 107, 3, 0, 48, 67, 3], [29, 40, 107, 5, 0, 48, 80, 48, 65, 66],
         [29, 40, 107, 3, 0, 48, 81, 48, 10]] := by
  have h := twoD_subframe_sequence [65, 66] 3 (by decide) (by decide)
  exact ⟨h.1, h.2.1⟩

/-- C6: a size outside [2,16] is silently replaced by the default 3, so the
whole emitted sequence coincides with the size-3 one; a size inside [2,16]
appears unchanged as the size sub-frame's last byte; and the builder never
reports an error, whatever the transport does. -/
theorem twoD_size_clamp (codetype code : List Nat) (size : Int) :
    ((size < 2 ∨ 16 < size) →
      twodimensionBarcode codetype code size = twodimensionBarcode codetype code 3) ∧
    (2 ≤ size → size ≤ 16 →
      (twodimensionBarcode codetype code size).headD []
        = [29, 40, 107, 3, 0] ++ codetype ++ [67, size.toNat]) ∧
    (∀ fail : Nat → Bool, (twodimensionBarcodeRun fail codetype code size).2 = none) := by
  refine ⟨fun h => ?_, fun h1 h2 => ?_, fun fail => rfl⟩
  · simp only [twodimensionBarcode]
    rw [if_pos h]
    norm_num
  · rw [twodimensionBarcode_in_range codetype code size h1 h2]
    simp [twoDbar]

/-- C6 witness: QR data with the out-of-range size 1 produces the same
byte sequence as with the default size 3. -/
theorem twoD_size_clamp_witness :
    twodimensionBarcode [49] [65, 66] 1 = twodimensionBarcode [49] [65, 66] 3 :=
  (twoD_size_clamp [49] [65, 66] 1).1 (Or.inl (by decide))

/-- C7: GetErrorStatus first writes exactly the three bytes 10 04 02; on
write success it performs exactly one read of one byte and returns that
byte as the status; on a write failure no read is attempted and on any
failure the status is the zero value and the error is returned. -/
theorem getErrorStatus_protocol (werr : Option Unit) (rres : Except Unit (Fin 256)) :
    ((GetErrorStatusRun werr rres).1.headD (.read 0) = .write [16, 4, 2]) ∧
    (werr = none → (GetErrorStatusRun werr rres).1 = [.write [16, 4, 2], .read 1]) ∧
    (∀ e, werr = some e → (GetErrorStatusRun werr rres).1 = [.write [16, 4, 2]] ∧
      (GetErrorStatusRun werr rres).2 = (0, some e)) ∧
    (∀ e, rres = Except.error e → werr = none →
      (GetErrorStatusRun werr rres).2 = (0, some e)) ∧
    (∀ b : Fin 256, rres = Except.ok b → werr = none →
      (GetErrorStatusRun werr rres).2 = (b.val, none)) := by
  cases werr <;> cases rres <;> simp [GetErrorStatusRun]

/-- C7 witness: at a failing write the trace holds the single write of
10 04 02, no read, and the returned status is the zero value with the
error. -/
theorem getErrorStatus_protocol_witness :
    (GetErrorStatusRun (some ()) (Except.ok 0)).1 = [.write [16, 4, 2]] ∧
    (GetErrorStatusRun (some ()) (Except.ok 0)).2 = (0, some ()) :=
  (getErrorStatus_protocol (some ()) (Except.ok 0)).2.2.1 () rfl

/-- C8: Print on empty input performs zero transport writes, never invokes
the character converter, and returns no error, for every converter,
substitution pass and transport behavior. -/
theorem print_empty_no_writes (conv : List Nat → Except Unit (List Nat))
    (repl : List Nat → List Nat) (wfail : Bool) :
    (PrintTrace conv repl wfail []).writes = [] ∧
    (PrintTrace conv repl wfail []).convCalls = [] ∧
    (PrintTrace conv repl wfail []).err = none :=
  ⟨rfl, rfl, rfl⟩

/-- C8 witness: one concrete instantiation of the converter, substitution
pass and transport. -/
theorem print_empty_no_writes_witness :
    (PrintTrace (fun d => Except.ok d) id false []).writes = [] :=
  (print_empty_no_writes (fun d => Except.ok d) id false).1

/-- C9: SetDoubleHeight(true) writes 1C 21 08, SetDoubleWidth(true) writes
1C 21 04, both false-frames are the identical 1C 21 00, and no emitted
frame ever carries both mode bits 0x08 and 0x04 at once. -/
theorem double_toggles_shared_mode_byte :
    SetDoubleHeight true = [28, 33, 8] ∧ SetDoubleWidth true = [28, 33, 4] ∧
    SetDoubleHeight false = [28, 33, 0] ∧ SetDoubleWidth false = [28, 33, 0] ∧
    SetDoubleHeight false = SetDoubleWidth false ∧
    (∀ b : Bool, (SetDoubleHeight b).getD 2 0 &&& 12 ≠ 12
      ∧ (SetDoubleWidth b).getD 2 0 &&& 12 ≠ 12) := by decide

/-- C10 counterexample: at n = 0 the two variants differ: epson.go writes
1B 52 00, part_000 writes 1B 52 30 (the ASCII digit "0"). -/
theorem setCharacterSet_variants_refuted :
    SetCharacterSet 0 ≠ SetCharacterSetV0 0 := by decide

/-- C10 (amended): for every n in [0,255] the two SetCharacterSet variants
write different byte sequences: src/epson.go writes the raw byte frame
1B 52 n while src/unnamed/part_000 writes 1B 52 followed by the ASCII
decimal digits of n; the two embeddings are never extensionally equal. -/
theorem setCharacterSet_variants_differ (n : Nat) (h : n ≤ 255) :
    SetCharacterSet n = [27, 82, n] ∧
    SetCharacterSetV0 n = [27, 82] ++ decDigits n ∧
    SetCharacterSet n ≠ SetCharacterSetV0 n := by
  have hben : SetCharacterSet n = [27, 82, n] := by
    unfold SetCharacterSet
    rw [Nat.mod_eq_of_lt (by omega)]
  refine ⟨hben, rfl, ?_⟩
  by_cases hn : n < 10
  · rw [hben, SetCharacterSetV0, decDigits_of_lt_ten n hn]
    intro he
    simp at he
  · intro he
    have hlen : (SetCharacterSet n).length = 3 := by rw [hben]; rfl
    have hlen2 : 4 ≤ (SetCharacterSetV0 n).length := by
      unfold SetCharacterSetV0
      have := decDigits_length_of_ten_le n (by omega)
      simp only [List.length_append, List.length_cons, List.length_nil]
      omega
    rw [he] at hlen
    omega

/-- C10 witness: at n = 15 (the Chinese character-set index the source
comments name) epson.go writes 1B 52 0F while part_000 writes 1B 52 31 35. -/
theorem setCharacterSet_variants_witness :
    SetCharacterSet 15 ≠ SetCharacterSetV0 15 :=
  (setCharacterSet_variants_differ 15 (by decide)).2.2

end Escpos
